import Mathlib

/-!
# pqerror: PostgreSQL error codes and the predicates `IsClass` and `IsCode`

A shallow embedding of `codes.go` (package `pqerror`): the catalog of SQLSTATE
class and code constants, and the two predicates that test an `error` value
against it.

Go values are modelled as follows.
* A Go `string` is a sequence of bytes (`GoString`); a string literal denotes the
  UTF-8 bytes of its text (`str`). Every catalog value is ASCII, so a byte of it
  is a character of it.
* `pq.ErrorCode` and `pq.ErrorClass` are distinct defined types over `string`.
* A `*pq.Error` is `Option pq.Error`, `none` being the nil pointer.
* A value of the interface type `error` is `GoError`: the nil interface, a
  `*pq.Error` (possibly a nil pointer), or a value of any other dynamic type.
* A Go function that may panic returns `Except Panic _`.
-/

/-- A Go `string`: an immutable sequence of bytes. -/
abbrev GoString := List UInt8

/-- A Go string literal: the UTF-8 bytes of its text. -/
def str (s : String) : GoString := s.toUTF8.data.toList

/-- The run-time panics of the Go operations used by the package. -/
inductive Panic where
  /-- A field read through a nil pointer. -/
  | nilPointerDereference
  /-- A slice expression `s[lo:hi]` with `hi > len(s)`. -/
  | sliceBoundsOutOfRange
  deriving DecidableEq, Repr

deriving instance DecidableEq for Except

namespace pq

/-- The defined type `type ErrorCode string` of github.com/lib/pq. -/
structure ErrorCode where
  bytes : GoString
  deriving DecidableEq, Repr

/-- The defined type `type ErrorClass string` of github.com/lib/pq. -/
structure ErrorClass where
  bytes : GoString
  deriving DecidableEq, Repr

/-- Modelled from the spec: the method `Class` of `pq.ErrorCode` belongs to the
imported package github.com/lib/pq and is not part of `codes.go`. The class of a
code is the slice of the code's first two bytes, `ErrorClass(ec[0:2])`; slicing a
string shorter than two bytes panics. -/
def ErrorCode.Class (ec : ErrorCode) : Except Panic ErrorClass :=
  if 2 ≤ ec.bytes.length then .ok (ErrorClass.mk (ec.bytes.take 2))
  else .error Panic.sliceBoundsOutOfRange

/-- Modelled from the spec: the struct `pq.Error` belongs to the imported package
github.com/lib/pq. The predicates read its field `Code` only; `Message` stands
for the fields they never read. -/
structure Error where
  Code : ErrorCode
  Message : GoString
  deriving DecidableEq, Repr

end pq

/-- A value of the Go interface type `error`, by its dynamic type. -/
inductive GoError where
  /-- The nil interface value. -/
  | nil : GoError
  /-- A value of dynamic type `*pq.Error`; `none` is a nil pointer stored in the
  interface (the interface itself is then not nil). -/
  | pqError (p : Option pq.Error) : GoError
  /-- A non-nil value of any dynamic type other than `*pq.Error`: its message and
  the error it wraps (`nil` when it wraps none). -/
  | other (text : GoString) (unwrap : GoError) : GoError
  deriving DecidableEq, Repr

/-- The comma-ok type assertion `pqerr, ok := err.(*pq.Error)`: it never panics;
when the dynamic type is not `*pq.Error` (or `err` is nil) it yields the nil
pointer and `false`. -/
def assertPqError : GoError → Option pq.Error × Bool
  | .pqError p => (p, true)
  | _ => (none, false)

/-- The selector `pqerr.Code` on a pointer: panics on a nil pointer. -/
def derefCode : Option pq.Error → Except Panic pq.ErrorCode
  | some e => .ok e.Code
  | none => .error Panic.nilPointerDereference

/-- Whether following the wrapped errors from `err` (`Unwrap`, any number of times,
none included) reaches the non-nil `*pq.Error` `e`. -/
def GoError.chainsTo : GoError → pq.Error → Bool
  | .nil, _ => false
  | .pqError p, e => decide (p = some e)
  | .other _ unwrap, e => unwrap.chainsTo e

namespace pqerror

/-- The PostgreSQL major version whose catalog the package encodes. -/
def PqVersion : Nat := 12

/-- IsClass reports whether an error is of type `*pq.Error` and has a given class:
`pqerr, ok := err.(*pq.Error); return ok && pqerr.Code.Class() == class`.
The right operand of `&&` is evaluated only when `ok` is true. -/
def IsClass (err : GoError) (cls : pq.ErrorClass) : Except Panic Bool :=
  let (pqerr, ok) := assertPqError err
  if ok then do
    let code ← derefCode pqerr
    let c ← code.Class
    pure (decide (c = cls))
  else pure false

/-- IsCode reports whether an error is of type `*pq.Error` and has a given code:
`pqerr, ok := err.(*pq.Error); return ok && pqerr.Code == code`. -/
def IsCode (err : GoError) (code : pq.ErrorCode) : Except Panic Bool :=
  let (pqerr, ok) := assertPqError err
  if ok then do
    let c ← derefCode pqerr
    pure (decide (c = code))
  else pure false

def ClassSuccessfulCompletion : pq.ErrorClass := pq.ErrorClass.mk (str "00")
def ClassWarning : pq.ErrorClass := pq.ErrorClass.mk (str "01")
def ClassNoData : pq.ErrorClass := pq.ErrorClass.mk (str "02")
def ClassSQLStatementNotYetComplete : pq.ErrorClass := pq.ErrorClass.mk (str "03")
def ClassConnectionException : pq.ErrorClass := pq.ErrorClass.mk (str "08")
def ClassTriggeredActionException : pq.ErrorClass := pq.ErrorClass.mk (str "09")
def ClassFeatureNotSupported : pq.ErrorClass := pq.ErrorClass.mk (str "0A")
def ClassInvalidTransactionInitiation : pq.ErrorClass := pq.ErrorClass.mk (str "0B")
def ClassLocatorException : pq.ErrorClass := pq.ErrorClass.mk (str "0F")
def ClassInvalidGrantor : pq.ErrorClass := pq.ErrorClass.mk (str "0L")
def ClassInvalidRoleSpecification : pq.ErrorClass := pq.ErrorClass.mk (str "0P")
def ClassDiagnosticsException : pq.ErrorClass := pq.ErrorClass.mk (str "0Z")
def ClassCaseNotFound : pq.ErrorClass := pq.ErrorClass.mk (str "20")
def ClassCardinalityViolation : pq.ErrorClass := pq.ErrorClass.mk (str "21")
def ClassDataException : pq.ErrorClass := pq.ErrorClass.mk (str "22")
def ClassIntegrityConstraintViolation : pq.ErrorClass := pq.ErrorClass.mk (str "23")
def ClassInvalidCursorState : pq.ErrorClass := pq.ErrorClass.mk (str "24")
def ClassInvalidTransactionState : pq.ErrorClass := pq.ErrorClass.mk (str "25")
def ClassInvalidSQLStatementName : pq.ErrorClass := pq.ErrorClass.mk (str "26")
def ClassTriggeredDataChangeViolation : pq.ErrorClass := pq.ErrorClass.mk (str "27")
def ClassInvalidAuthorizationSpecification : pq.ErrorClass := pq.ErrorClass.mk (str "28")
def ClassDependentPrivilegeDescriptorsStillExist : pq.ErrorClass := pq.ErrorClass.mk (str "2B")
def ClassInvalidTransactionTermination : pq.ErrorClass := pq.ErrorClass.mk (str "2D")
def ClassSQLRoutineException : pq.ErrorClass := pq.ErrorClass.mk (str "2F")
def ClassInvalidCursorName : pq.ErrorClass := pq.ErrorClass.mk (str "34")
def ClassExternalRoutineException : pq.ErrorClass := pq.ErrorClass.mk (str "38")
def ClassExternalRoutineInvocationException : pq.ErrorClass := pq.ErrorClass.mk (str "39")
def ClassSavepointException : pq.ErrorClass := pq.ErrorClass.mk (str "3B")
def ClassInvalidCatalogName : pq.ErrorClass := pq.ErrorClass.mk (str "3D")
def ClassInvalidSchemaName : pq.ErrorClass := pq.ErrorClass.mk (str "3F")
def ClassTransactionRollback : pq.ErrorClass := pq.ErrorClass.mk (str "40")
def ClassSyntaxErrorOrAccessRuleViolation : pq.ErrorClass := pq.ErrorClass.mk (str "42")
def ClassWithCheckOptionViolation : pq.ErrorClass := pq.ErrorClass.mk (str "44")
def ClassInsufficientResources : pq.ErrorClass := pq.ErrorClass.mk (str "53")
def ClassProgramLimitExceeded : pq.ErrorClass := pq.ErrorClass.mk (str "54")
def ClassObjectNotInPrerequisiteState : pq.ErrorClass := pq.ErrorClass.mk (str "55")
def ClassOperatorIntervention : pq.ErrorClass := pq.ErrorClass.mk (str "57")
def ClassSystemError : pq.ErrorClass := pq.ErrorClass.mk (str "58")
def ClassSnapshotTooOld : pq.ErrorClass := pq.ErrorClass.mk (str "72")
def ClassConfigFileError : pq.ErrorClass := pq.ErrorClass.mk (str "F0")
def ClassFdwError : pq.ErrorClass := pq.ErrorClass.mk (str "HV")
def ClassPlpgsqlError : pq.ErrorClass := pq.ErrorClass.mk (str "P0")
def ClassInternalError : pq.ErrorClass := pq.ErrorClass.mk (str "XX")

-- Class 00 - Successful Completion
def SuccessfulCompletion : pq.ErrorCode := pq.ErrorCode.mk (str "00000")

-- Class 01 - Warning
def Warning : pq.ErrorCode := pq.ErrorCode.mk (str "01000")
def WarningDynamicResultSetsReturned : pq.ErrorCode := pq.ErrorCode.mk (str "0100C")
def WarningImplicitZeroBitPadding : pq.ErrorCode := pq.ErrorCode.mk (str "01008")
def WarningNullValueEliminatedInSetFunction : pq.ErrorCode := pq.ErrorCode.mk (str "01003")
def WarningPrivilegeNotGranted : pq.ErrorCode := pq.ErrorCode.mk (str "01007")
def WarningPrivilegeNotRevoked : pq.ErrorCode := pq.ErrorCode.mk (str "01006")
def WarningStringDataRightTruncation : pq.ErrorCode := pq.ErrorCode.mk (str "01004")
def WarningDeprecatedFeature : pq.ErrorCode := pq.ErrorCode.mk (str "01P01")

-- Class 02 - No Data (this is also a warning class per the SQL standard)
def NoData : pq.ErrorCode := pq.ErrorCode.mk (str "02000")
def NoAdditionalDynamicResultSetsReturned : pq.ErrorCode := pq.ErrorCode.mk (str "02001")

-- Class 03 - SQL Statement Not Yet Complete
def SQLStatementNotYetComplete : pq.ErrorCode := pq.ErrorCode.mk (str "03000")

-- Class 08 - Connection Exception
def ConnectionException : pq.ErrorCode := pq.ErrorCode.mk (str "08000")
def ConnectionDoesNotExist : pq.ErrorCode := pq.ErrorCode.mk (str "08003")
def ConnectionFailure : pq.ErrorCode := pq.ErrorCode.mk (str "08006")
def SQLClientUnableToEstablishSQLConnection : pq.ErrorCode := pq.ErrorCode.mk (str "08001")
def SQLServerRejectedEstablishmentOfSQLConnection : pq.ErrorCode := pq.ErrorCode.mk (str "08004")
def TransactionResolutionUnknown : pq.ErrorCode := pq.ErrorCode.mk (str "08007")
def ProtocolViolation : pq.ErrorCode := pq.ErrorCode.mk (str "08P01")

-- Class 09 - Triggered Action Exception
def TriggeredActionException : pq.ErrorCode := pq.ErrorCode.mk (str "09000")

-- Class 0A - Feature Not Supported
def FeatureNotSupported : pq.ErrorCode := pq.ErrorCode.mk (str "0A000")

-- Class 0B - Invalid Transaction Initiation
def InvalidTransactionInitiation : pq.ErrorCode := pq.ErrorCode.mk (str "0B000")

-- Class 0F - Locator Exception
def LocatorException : pq.ErrorCode := pq.ErrorCode.mk (str "0F000")
def InvalidLocatorSpecification : pq.ErrorCode := pq.ErrorCode.mk (str "0F001")

-- Class 0L - Invalid Grantor
def InvalidGrantor : pq.ErrorCode := pq.ErrorCode.mk (str "0L000")
def InvalidGrantOperation : pq.ErrorCode := pq.ErrorCode.mk (str "0LP01")

-- Class 0P - Invalid Role Specification
def InvalidRoleSpecification : pq.ErrorCode := pq.ErrorCode.mk (str "0P000")

-- Class 0Z - Diagnostics Exception
def DiagnosticsException : pq.ErrorCode := pq.ErrorCode.mk (str "0Z000")
def StackedDiagnosticsAccessedWithoutActiveHandler : pq.ErrorCode := pq.ErrorCode.mk (str "0Z002")

-- Class 20 - Case Not Found
def CaseNotFound : pq.ErrorCode := pq.ErrorCode.mk (str "20000")

-- Class 21 - Cardinality Violation
def CardinalityViolation : pq.ErrorCode := pq.ErrorCode.mk (str "21000")

-- Class 22 - Data Exception
def DataException : pq.ErrorCode := pq.ErrorCode.mk (str "22000")
def ArraySubscriptError : pq.ErrorCode := pq.ErrorCode.mk (str "2202E")
def ArrayElementError : pq.ErrorCode := pq.ErrorCode.mk (str "2202E")
def CharacterNotInRepertoire : pq.ErrorCode := pq.ErrorCode.mk (str "22021")
def DatetimeFieldOverflow : pq.ErrorCode := pq.ErrorCode.mk (str "22008")
def DatetimeValueOutOfRange : pq.ErrorCode := pq.ErrorCode.mk (str "22008")
def DivisionByZero : pq.ErrorCode := pq.ErrorCode.mk (str "22012")
def ErrorInAssignment : pq.ErrorCode := pq.ErrorCode.mk (str "22005")
def EscapeCharacterConflict : pq.ErrorCode := pq.ErrorCode.mk (str "2200B")
def IndicatorOverflow : pq.ErrorCode := pq.ErrorCode.mk (str "22022")
def IntervalFieldOverflow : pq.ErrorCode := pq.ErrorCode.mk (str "22015")
def InvalidArgumentForLogarithm : pq.ErrorCode := pq.ErrorCode.mk (str "2201E")
def InvalidArgumentForNtileFunction : pq.ErrorCode := pq.ErrorCode.mk (str "22014")
def InvalidArgumentForNthValueFunction : pq.ErrorCode := pq.ErrorCode.mk (str "22016")
def InvalidArgumentForPowerFunction : pq.ErrorCode := pq.ErrorCode.mk (str "2201F")
def InvalidArgumentForWidthBucketFunction : pq.ErrorCode := pq.ErrorCode.mk (str "2201G")
def InvalidCharacterValueForCast : pq.ErrorCode := pq.ErrorCode.mk (str "22018")
def InvalidDatetimeFormat : pq.ErrorCode := pq.ErrorCode.mk (str "22007")
def InvalidEscapeCharacter : pq.ErrorCode := pq.ErrorCode.mk (str "22019")
def InvalidEscapeOctet : pq.ErrorCode := pq.ErrorCode.mk (str "2200D")
def InvalidEscapeSequence : pq.ErrorCode := pq.ErrorCode.mk (str "22025")
def NonstandardUseOfEscapeCharacter : pq.ErrorCode := pq.ErrorCode.mk (str "22P06")
def InvalidIndicatorParameterValue : pq.ErrorCode := pq.ErrorCode.mk (str "22010")
def InvalidParameterValue : pq.ErrorCode := pq.ErrorCode.mk (str "22023")
def InvalidRegularExpression : pq.ErrorCode := pq.ErrorCode.mk (str "2201B")
def InvalidRowCountInLimitClause : pq.ErrorCode := pq.ErrorCode.mk (str "2201W")
def InvalidRowCountInResultOffsetClause : pq.ErrorCode := pq.ErrorCode.mk (str "2201X")
def InvalidTablesampleArgument : pq.ErrorCode := pq.ErrorCode.mk (str "2202H")
def InvalidTablesampleRepeat : pq.ErrorCode := pq.ErrorCode.mk (str "2202G")
def InvalidTimeZoneDisplacementValue : pq.ErrorCode := pq.ErrorCode.mk (str "22009")
def InvalidUseOfEscapeCharacter : pq.ErrorCode := pq.ErrorCode.mk (str "2200C")
def MostSpecificTypeMismatch : pq.ErrorCode := pq.ErrorCode.mk (str "2200G")
def NullValueNotAllowed : pq.ErrorCode := pq.ErrorCode.mk (str "22004")
def NullValueNoIndicatorParameter : pq.ErrorCode := pq.ErrorCode.mk (str "22002")
def NumericValueOutOfRange : pq.ErrorCode := pq.ErrorCode.mk (str "22003")
def StringDataLengthMismatch : pq.ErrorCode := pq.ErrorCode.mk (str "22026")
def StringDataRightTruncation : pq.ErrorCode := pq.ErrorCode.mk (str "22001")
def SubstringError : pq.ErrorCode := pq.ErrorCode.mk (str "22011")
def TrimError : pq.ErrorCode := pq.ErrorCode.mk (str "22027")
def UnterminatedCString : pq.ErrorCode := pq.ErrorCode.mk (str "22024")
def ZeroLengthCharacterString : pq.ErrorCode := pq.ErrorCode.mk (str "2200F")
def FloatingPointException : pq.ErrorCode := pq.ErrorCode.mk (str "22P01")
def InvalidTextRepresentation : pq.ErrorCode := pq.ErrorCode.mk (str "22P02")
def InvalidBinaryRepresentation : pq.ErrorCode := pq.ErrorCode.mk (str "22P03")
def BadCopyFileFormat : pq.ErrorCode := pq.ErrorCode.mk (str "22P04")
def UntranslatableCharacter : pq.ErrorCode := pq.ErrorCode.mk (str "22P05")
def NotAnXmlDocument : pq.ErrorCode := pq.ErrorCode.mk (str "2200L")
def InvalidXmlDocument : pq.ErrorCode := pq.ErrorCode.mk (str "2200M")
def InvalidXmlContent : pq.ErrorCode := pq.ErrorCode.mk (str "2200N")
def InvalidXmlComment : pq.ErrorCode := pq.ErrorCode.mk (str "2200S")
def InvalidXmlProcessingInstruction : pq.ErrorCode := pq.ErrorCode.mk (str "2200T")
def DuplicateJsonObjectKeyValue : pq.ErrorCode := pq.ErrorCode.mk (str "22030")
def InvalidJsonText : pq.ErrorCode := pq.ErrorCode.mk (str "22032")
def InvalidJsonSubscript : pq.ErrorCode := pq.ErrorCode.mk (str "22033")
def MoreThanOneJsonItem : pq.ErrorCode := pq.ErrorCode.mk (str "22034")
def NoJsonItem : pq.ErrorCode := pq.ErrorCode.mk (str "22035")
def NonNumericJsonItem : pq.ErrorCode := pq.ErrorCode.mk (str "22036")
def NonUniqueKeysInJsonObject : pq.ErrorCode := pq.ErrorCode.mk (str "22037")
def SingletonJsonItemRequired : pq.ErrorCode := pq.ErrorCode.mk (str "22038")
def JsonArrayNotFound : pq.ErrorCode := pq.ErrorCode.mk (str "22039")
def JsonMemberNotFound : pq.ErrorCode := pq.ErrorCode.mk (str "2203A")
def JsonNumberNotFound : pq.ErrorCode := pq.ErrorCode.mk (str "2203B")
def JsonObjectNotFound : pq.ErrorCode := pq.ErrorCode.mk (str "2203C")
def JsonScalarRequired : pq.ErrorCode := pq.ErrorCode.mk (str "2203F")
def TooManyJsonArrayElements : pq.ErrorCode := pq.ErrorCode.mk (str "2203D")
def TooManyJsonObjectMembers : pq.ErrorCode := pq.ErrorCode.mk (str "2203E")

-- Class 23 - Integrity Constraint Violation
def IntegrityConstraintViolation : pq.ErrorCode := pq.ErrorCode.mk (str "23000")
def RestrictViolation : pq.ErrorCode := pq.ErrorCode.mk (str "23001")
def NotNullViolation : pq.ErrorCode := pq.ErrorCode.mk (str "23502")
def ForeignKeyViolation : pq.ErrorCode := pq.ErrorCode.mk (str "23503")
def UniqueViolation : pq.ErrorCode := pq.ErrorCode.mk (str "23505")
def CheckViolation : pq.ErrorCode := pq.ErrorCode.mk (str "23514")
def ExclusionViolation : pq.ErrorCode := pq.ErrorCode.mk (str "23P01")

-- Class 24 - Invalid Cursor State
def InvalidCursorState : pq.ErrorCode := pq.ErrorCode.mk (str "24000")

-- Class 25 - Invalid Transaction State
def InvalidTransactionState : pq.ErrorCode := pq.ErrorCode.mk (str "25000")
def ActiveSQLTransaction : pq.ErrorCode := pq.ErrorCode.mk (str "25001")
def BranchTransactionAlreadyActive : pq.ErrorCode := pq.ErrorCode.mk (str "25002")
def HeldCursorRequiresSameIsolationLevel : pq.ErrorCode := pq.ErrorCode.mk (str "25008")
def InappropriateAccessModeForBranchTransaction : pq.ErrorCode := pq.ErrorCode.mk (str "25003")
def InappropriateIsolationLevelForBranchTransaction : pq.ErrorCode := pq.ErrorCode.mk (str "25004")
def NoActiveSQLTransactionForBranchTransaction : pq.ErrorCode := pq.ErrorCode.mk (str "25005")
def ReadOnlySQLTransaction : pq.ErrorCode := pq.ErrorCode.mk (str "25006")
def SchemaAndDataStatementMixingNotSupported : pq.ErrorCode := pq.ErrorCode.mk (str "25007")
def NoActiveSQLTransaction : pq.ErrorCode := pq.ErrorCode.mk (str "25P01")
def InFailedSQLTransaction : pq.ErrorCode := pq.ErrorCode.mk (str "25P02")
def IdleInTransactionSessionTimeout : pq.ErrorCode := pq.ErrorCode.mk (str "25P03")

-- Class 26 - Invalid SQL Statement Name
def InvalidSQLStatementName : pq.ErrorCode := pq.ErrorCode.mk (str "26000")

-- Class 27 - Triggered Data Change Violation
def TriggeredDataChangeViolation : pq.ErrorCode := pq.ErrorCode.mk (str "27000")

-- Class 28 - Invalid Authorization Specification
def InvalidAuthorizationSpecification : pq.ErrorCode := pq.ErrorCode.mk (str "28000")
def InvalidPassword : pq.ErrorCode := pq.ErrorCode.mk (str "28P01")

-- Class 2B - Dependent Privilege Descriptors Still Exist
def DependentPrivilegeDescriptorsStillExist : pq.ErrorCode := pq.ErrorCode.mk (str "2B000")
def DependentObjectsStillExist : pq.ErrorCode := pq.ErrorCode.mk (str "2BP01")

-- Class 2D - Invalid Transaction Termination
def InvalidTransactionTermination : pq.ErrorCode := pq.ErrorCode.mk (str "2D000")

-- Class 2F - SQL Routine Exception
def SQLRoutineException : pq.ErrorCode := pq.ErrorCode.mk (str "2F000")
def FunctionExecutedNoReturnStatement : pq.ErrorCode := pq.ErrorCode.mk (str "2F005")
def ModifyingSQLDataNotPermitted : pq.ErrorCode := pq.ErrorCode.mk (str "2F002")
def ProhibitedSQLStatementAttempted : pq.ErrorCode := pq.ErrorCode.mk (str "2F003")
def ReadingSQLDataNotPermitted : pq.ErrorCode := pq.ErrorCode.mk (str "2F004")

-- Class 34 - Invalid Cursor Name
def InvalidCursorName : pq.ErrorCode := pq.ErrorCode.mk (str "34000")

-- Class 38 - External Routine Exception
def ExternalRoutineException : pq.ErrorCode := pq.ErrorCode.mk (str "38000")
def ExternalRoutineException_ContainingSQLNotPermitted : pq.ErrorCode := pq.ErrorCode.mk (str "38001")
def ExternalRoutineException_ModifyingSQLDataNotPermitted : pq.ErrorCode := pq.ErrorCode.mk (str "38002")
def ExternalRoutineException_ProhibitedSQLStatementAttempted : pq.ErrorCode := pq.ErrorCode.mk (str "38003")
def ExternalRoutineException_ReadingSQLDataNotPermitted : pq.ErrorCode := pq.ErrorCode.mk (str "38004")

-- Class 39 - External Routine Invocation Exception
def ExternalRoutineInvocationException : pq.ErrorCode := pq.ErrorCode.mk (str "39000")
def ExternalRoutineInvocationException_InvalidSQLstateReturned : pq.ErrorCode := pq.ErrorCode.mk (str "39001")
def ExternalRoutineInvocationException_NullValueNotAllowed : pq.ErrorCode := pq.ErrorCode.mk (str "39004")
def ExternalRoutineInvocationException_TriggerProtocolViolated : pq.ErrorCode := pq.ErrorCode.mk (str "39P01")
def ExternalRoutineInvocationException_SrfProtocolViolated : pq.ErrorCode := pq.ErrorCode.mk (str "39P02")
def ExternalRoutineInvocationException_EventTriggerProtocolViolated : pq.ErrorCode := pq.ErrorCode.mk (str "39P03")

-- Class 3B - Savepoint Exception
def SavepointException : pq.ErrorCode := pq.ErrorCode.mk (str "3B000")
def InvalidSavepointSpecification : pq.ErrorCode := pq.ErrorCode.mk (str "3B001")

-- Class 3D - Invalid Catalog Name
def InvalidCatalogName : pq.ErrorCode := pq.ErrorCode.mk (str "3D000")

-- Class 3F - Invalid Schema Name
def InvalidSchemaName : pq.ErrorCode := pq.ErrorCode.mk (str "3F000")

-- Class 40 - Transaction Rollback
def TransactionRollback : pq.ErrorCode := pq.ErrorCode.mk (str "40000")
def TransactionIntegrityConstraintViolation : pq.ErrorCode := pq.ErrorCode.mk (str "40002")
def SerializationFailure : pq.ErrorCode := pq.ErrorCode.mk (str "40001")
def StatementCompletionUnknown : pq.ErrorCode := pq.ErrorCode.mk (str "40003")
def DeadlockDetected : pq.ErrorCode := pq.ErrorCode.mk (str "40P01")

-- Class 42 - Syntax Error or Access Rule Violation
def SyntaxErrorOrAccessRuleViolation : pq.ErrorCode := pq.ErrorCode.mk (str "42000")
def SyntaxError : pq.ErrorCode := pq.ErrorCode.mk (str "42601")
def InsufficientPrivilege : pq.ErrorCode := pq.ErrorCode.mk (str "42501")
def CannotCoerce : pq.ErrorCode := pq.ErrorCode.mk (str "42846")
def GroupingError : pq.ErrorCode := pq.ErrorCode.mk (str "42803")
def WindowingError : pq.ErrorCode := pq.ErrorCode.mk (str "42P20")
def InvalidRecursion : pq.ErrorCode := pq.ErrorCode.mk (str "42P19")
def InvalidForeignKey : pq.ErrorCode := pq.ErrorCode.mk (str "42830")
def InvalidName : pq.ErrorCode := pq.ErrorCode.mk (str "42602")
def NameTooLong : pq.ErrorCode := pq.ErrorCode.mk (str "42622")
def ReservedName : pq.ErrorCode := pq.ErrorCode.mk (str "42939")
def DatatypeMismatch : pq.ErrorCode := pq.ErrorCode.mk (str "42804")
def IndeterminateDatatype : pq.ErrorCode := pq.ErrorCode.mk (str "42P18")
def CollationMismatch : pq.ErrorCode := pq.ErrorCode.mk (str "42P21")
def IndeterminateCollation : pq.ErrorCode := pq.ErrorCode.mk (str "42P22")
def WrongObjectType : pq.ErrorCode := pq.ErrorCode.mk (str "42809")
def UndefinedColumn : pq.ErrorCode := pq.ErrorCode.mk (str "42703")
def UndefinedFunction : pq.ErrorCode := pq.ErrorCode.mk (str "42883")
def UndefinedTable : pq.ErrorCode := pq.ErrorCode.mk (str "42P01")
def UndefinedParameter : pq.ErrorCode := pq.ErrorCode.mk (str "42P02")
def UndefinedObject : pq.ErrorCode := pq.ErrorCode.mk (str "42704")
def DuplicateColumn : pq.ErrorCode := pq.ErrorCode.mk (str "42701")
def DuplicateCursor : pq.ErrorCode := pq.ErrorCode.mk (str "42P03")
def DuplicateDatabase : pq.ErrorCode := pq.ErrorCode.mk (str "42P04")
def DuplicateFunction : pq.ErrorCode := pq.ErrorCode.mk (str "42723")
def DuplicatePreparedStatement : pq.ErrorCode := pq.ErrorCode.mk (str "42P05")
def DuplicateSchema : pq.ErrorCode := pq.ErrorCode.mk (str "42P06")
def DuplicateTable : pq.ErrorCode := pq.ErrorCode.mk (str "42P07")
def DuplicateAlias : pq.ErrorCode := pq.ErrorCode.mk (str "42712")
def DuplicateObject : pq.ErrorCode := pq.ErrorCode.mk (str "42710")
def AmbiguousColumn : pq.ErrorCode := pq.ErrorCode.mk (str "42702")
def AmbiguousFunction : pq.ErrorCode := pq.ErrorCode.mk (str "42725")
def AmbiguousParameter : pq.ErrorCode := pq.ErrorCode.mk (str "42P08")
def AmbiguousAlias : pq.ErrorCode := pq.ErrorCode.mk (str "42P09")
def InvalidColumnReference : pq.ErrorCode := pq.ErrorCode.mk (str "42P10")
def InvalidColumnDefinition : pq.ErrorCode := pq.ErrorCode.mk (str "42611")
def InvalidCursorDefinition : pq.ErrorCode := pq.ErrorCode.mk (str "42P11")
def InvalidDatabaseDefinition : pq.ErrorCode := pq.ErrorCode.mk (str "42P12")
def InvalidFunctionDefinition : pq.ErrorCode := pq.ErrorCode.mk (str "42P13")
def InvalidPreparedStatementDefinition : pq.ErrorCode := pq.ErrorCode.mk (str "42P14")
def InvalidSchemaDefinition : pq.ErrorCode := pq.ErrorCode.mk (str "42P15")
def InvalidTableDefinition : pq.ErrorCode := pq.ErrorCode.mk (str "42P16")
def InvalidObjectDefinition : pq.ErrorCode := pq.ErrorCode.mk (str "42P17")

-- Class 44 - WITH CHECK OPTION Violation
def WithCheckOptionViolation : pq.ErrorCode := pq.ErrorCode.mk (str "44000")

-- Class 53 - Insufficient Resources
def InsufficientResources : pq.ErrorCode := pq.ErrorCode.mk (str "53000")
def DiskFull : pq.ErrorCode := pq.ErrorCode.mk (str "53100")
def OutOfMemory : pq.ErrorCode := pq.ErrorCode.mk (str "53200")
def TooManyConnections : pq.ErrorCode := pq.ErrorCode.mk (str "53300")
def ConfigurationLimitExceeded : pq.ErrorCode := pq.ErrorCode.mk (str "53400")

-- Class 54 - Program Limit Exceeded
def ProgramLimitExceeded : pq.ErrorCode := pq.ErrorCode.mk (str "54000")
def StatementTooComplex : pq.ErrorCode := pq.ErrorCode.mk (str "54001")
def TooManyColumns : pq.ErrorCode := pq.ErrorCode.mk (str "54011")
def TooManyArguments : pq.ErrorCode := pq.ErrorCode.mk (str "54023")

-- Class 55 - Object Not In Prerequisite State
def ObjectNotInPrerequisiteState : pq.ErrorCode := pq.ErrorCode.mk (str "55000")
def ObjectInUse : pq.ErrorCode := pq.ErrorCode.mk (str "55006")
def CantChangeRuntimeParam : pq.ErrorCode := pq.ErrorCode.mk (str "55P02")
def LockNotAvailable : pq.ErrorCode := pq.ErrorCode.mk (str "55P03")
def UnsafeNewEnumValueUsage : pq.ErrorCode := pq.ErrorCode.mk (str "55P04")

-- Class 57 - Operator Intervention
def OperatorIntervention : pq.ErrorCode := pq.ErrorCode.mk (str "57000")
def QueryCanceled : pq.ErrorCode := pq.ErrorCode.mk (str "57014")
def AdminShutdown : pq.ErrorCode := pq.ErrorCode.mk (str "57P01")
def CrashShutdown : pq.ErrorCode := pq.ErrorCode.mk (str "57P02")
def CannotConnectNow : pq.ErrorCode := pq.ErrorCode.mk (str "57P03")
def DatabaseDropped : pq.ErrorCode := pq.ErrorCode.mk (str "57P04")

-- Class 58 - System Error (errors external to PostgreSQL itself)
def SystemError : pq.ErrorCode := pq.ErrorCode.mk (str "58000")
def IoError : pq.ErrorCode := pq.ErrorCode.mk (str "58030")
def UndefinedFile : pq.ErrorCode := pq.ErrorCode.mk (str "58P01")
def DuplicateFile : pq.ErrorCode := pq.ErrorCode.mk (str "58P02")

-- Class 72 - Snapshot Failure
def SnapshotTooOld : pq.ErrorCode := pq.ErrorCode.mk (str "72000")

-- Class F0 - Configuration File Error
def ConfigFileError : pq.ErrorCode := pq.ErrorCode.mk (str "F0000")
def LockFileExists : pq.ErrorCode := pq.ErrorCode.mk (str "F0001")

-- Class HV - Foreign Data Wrapper Error (SQL/MED)
def FdwError : pq.ErrorCode := pq.ErrorCode.mk (str "HV000")
def FdwColumnNameNotFound : pq.ErrorCode := pq.ErrorCode.mk (str "HV005")
def FdwDynamicParameterValueNeeded : pq.ErrorCode := pq.ErrorCode.mk (str "HV002")
def FdwFunctionSequenceError : pq.ErrorCode := pq.ErrorCode.mk (str "HV010")
def FdwInconsistentDescriptorInformation : pq.ErrorCode := pq.ErrorCode.mk (str "HV021")
def FdwInvalidAttributeValue : pq.ErrorCode := pq.ErrorCode.mk (str "HV024")
def FdwInvalidColumnName : pq.ErrorCode := pq.ErrorCode.mk (str "HV007")
def FdwInvalidColumnNumber : pq.ErrorCode := pq.ErrorCode.mk (str "HV008")
def FdwInvalidDataType : pq.ErrorCode := pq.ErrorCode.mk (str "HV004")
def FdwInvalidDataTypeDescriptors : pq.ErrorCode := pq.ErrorCode.mk (str "HV006")
def FdwInvalidDescriptorFieldIdentifier : pq.ErrorCode := pq.ErrorCode.mk (str "HV091")
def FdwInvalidHandle : pq.ErrorCode := pq.ErrorCode.mk (str "HV00B")
def FdwInvalidOptionIndex : pq.ErrorCode := pq.ErrorCode.mk (str "HV00C")
def FdwInvalidOptionName : pq.ErrorCode := pq.ErrorCode.mk (str "HV00D")
def FdwInvalidStringLengthOrBufferLength : pq.ErrorCode := pq.ErrorCode.mk (str "HV090")
def FdwInvalidStringFormat : pq.ErrorCode := pq.ErrorCode.mk (str "HV00A")
def FdwInvalidUseOfNullPointer : pq.ErrorCode := pq.ErrorCode.mk (str "HV009")
def FdwTooManyHandles : pq.ErrorCode := pq.ErrorCode.mk (str "HV014")
def FdwOutOfMemory : pq.ErrorCode := pq.ErrorCode.mk (str "HV001")
def FdwNoSchemas : pq.ErrorCode := pq.ErrorCode.mk (str "HV00P")
def FdwOptionNameNotFound : pq.ErrorCode := pq.ErrorCode.mk (str "HV00J")
def FdwReplyHandle : pq.ErrorCode := pq.ErrorCode.mk (str "HV00K")
def FdwSchemaNotFound : pq.ErrorCode := pq.ErrorCode.mk (str "HV00Q")
def FdwTableNotFound : pq.ErrorCode := pq.ErrorCode.mk (str "HV00R")
def FdwUnableToCreateExecution : pq.ErrorCode := pq.ErrorCode.mk (str "HV00L")
def FdwUnableToCreateReply : pq.ErrorCode := pq.ErrorCode.mk (str "HV00M")
def FdwUnableToEstablishConnection : pq.ErrorCode := pq.ErrorCode.mk (str "HV00N")

-- Class P0 - PL/pgSQL Error
def PLpgSQLError : pq.ErrorCode := pq.ErrorCode.mk (str "P0000")
def RaiseException : pq.ErrorCode := pq.ErrorCode.mk (str "P0001")
def NoDataFound : pq.ErrorCode := pq.ErrorCode.mk (str "P0002")
def TooManyRows : pq.ErrorCode := pq.ErrorCode.mk (str "P0003")
def AssertFailure : pq.ErrorCode := pq.ErrorCode.mk (str "P0004")

-- Class XX - Internal Error
def InternalError : pq.ErrorCode := pq.ErrorCode.mk (str "XX000")
def DataCorrupted : pq.ErrorCode := pq.ErrorCode.mk (str "XX001")
def IndexCorrupted : pq.ErrorCode := pq.ErrorCode.mk (str "XX002")

/-- The named `ErrorClass` constants of the catalog, each with its name, in source order. -/
def classConstants : List (String × pq.ErrorClass) :=
  [("ClassSuccessfulCompletion", ClassSuccessfulCompletion), ("ClassWarning", ClassWarning),
   ("ClassNoData", ClassNoData),
   ("ClassSQLStatementNotYetComplete", ClassSQLStatementNotYetComplete),
   ("ClassConnectionException", ClassConnectionException),
   ("ClassTriggeredActionException", ClassTriggeredActionException),
   ("ClassFeatureNotSupported", ClassFeatureNotSupported),
   ("ClassInvalidTransactionInitiation", ClassInvalidTransactionInitiation),
   ("ClassLocatorException", ClassLocatorException),
   ("ClassInvalidGrantor", ClassInvalidGrantor),
   ("ClassInvalidRoleSpecification", ClassInvalidRoleSpecification),
   ("ClassDiagnosticsException", ClassDiagnosticsException),
   ("ClassCaseNotFound", ClassCaseNotFound),
   ("ClassCardinalityViolation", ClassCardinalityViolation),
   ("ClassDataException", ClassDataException),
   ("ClassIntegrityConstraintViolation", ClassIntegrityConstraintViolation),
   ("ClassInvalidCursorState", ClassInvalidCursorState),
   ("ClassInvalidTransactionState", ClassInvalidTransactionState),
   ("ClassInvalidSQLStatementName", ClassInvalidSQLStatementName),
   ("ClassTriggeredDataChangeViolation", ClassTriggeredDataChangeViolation),
   ("ClassInvalidAuthorizationSpecification", ClassInvalidAuthorizationSpecification),
   ("ClassDependentPrivilegeDescriptorsStillExist", ClassDependentPrivilegeDescriptorsStillExist),
   ("ClassInvalidTransactionTermination", ClassInvalidTransactionTermination),
   ("ClassSQLRoutineException", ClassSQLRoutineException),
   ("ClassInvalidCursorName", ClassInvalidCursorName),
   ("ClassExternalRoutineException", ClassExternalRoutineException),
   ("ClassExternalRoutineInvocationException", ClassExternalRoutineInvocationException),
   ("ClassSavepointException", ClassSavepointException),
   ("ClassInvalidCatalogName", ClassInvalidCatalogName),
   ("ClassInvalidSchemaName", ClassInvalidSchemaName),
   ("ClassTransactionRollback", ClassTransactionRollback),
   ("ClassSyntaxErrorOrAccessRuleViolation", ClassSyntaxErrorOrAccessRuleViolation),
   ("ClassWithCheckOptionViolation", ClassWithCheckOptionViolation),
   ("ClassInsufficientResources", ClassInsufficientResources),
   ("ClassProgramLimitExceeded", ClassProgramLimitExceeded),
   ("ClassObjectNotInPrerequisiteState", ClassObjectNotInPrerequisiteState),
   ("ClassOperatorIntervention", ClassOperatorIntervention),
   ("ClassSystemError", ClassSystemError), ("ClassSnapshotTooOld", ClassSnapshotTooOld),
   ("ClassConfigFileError", ClassConfigFileError), ("ClassFdwError", ClassFdwError),
   ("ClassPlpgsqlError", ClassPlpgsqlError), ("ClassInternalError", ClassInternalError)]

/-- The named `ErrorCode` constants of the catalog, each with its name, in source order. -/
def codeConstants : List (String × pq.ErrorCode) :=
  [("SuccessfulCompletion", SuccessfulCompletion), ("Warning", Warning),
   ("WarningDynamicResultSetsReturned", WarningDynamicResultSetsReturned),
   ("WarningImplicitZeroBitPadding", WarningImplicitZeroBitPadding),
   ("WarningNullValueEliminatedInSetFunction", WarningNullValueEliminatedInSetFunction),
   ("WarningPrivilegeNotGranted", WarningPrivilegeNotGranted),
   ("WarningPrivilegeNotRevoked", WarningPrivilegeNotRevoked),
   ("WarningStringDataRightTruncation", WarningStringDataRightTruncation),
   ("WarningDeprecatedFeature", WarningDeprecatedFeature), ("NoData", NoData),
   ("NoAdditionalDynamicResultSetsReturned", NoAdditionalDynamicResultSetsReturned),
   ("SQLStatementNotYetComplete", SQLStatementNotYetComplete),
   ("ConnectionException", ConnectionException),
   ("ConnectionDoesNotExist", ConnectionDoesNotExist), ("ConnectionFailure", ConnectionFailure),
   ("SQLClientUnableToEstablishSQLConnection", SQLClientUnableToEstablishSQLConnection),
   ("SQLServerRejectedEstablishmentOfSQLConnection", SQLServerRejectedEstablishmentOfSQLConnection),
   ("TransactionResolutionUnknown", TransactionResolutionUnknown),
   ("ProtocolViolation", ProtocolViolation),
   ("TriggeredActionException", TriggeredActionException),
   ("FeatureNotSupported", FeatureNotSupported),
   ("InvalidTransactionInitiation", InvalidTransactionInitiation),
   ("LocatorException", LocatorException),
   ("InvalidLocatorSpecification", InvalidLocatorSpecification),
   ("InvalidGrantor", InvalidGrantor), ("InvalidGrantOperation", InvalidGrantOperation),
   ("InvalidRoleSpecification", InvalidRoleSpecification),
   ("DiagnosticsException", DiagnosticsException),
   ("StackedDiagnosticsAccessedWithoutActiveHandler", StackedDiagnosticsAccessedWithoutActiveHandler),
   ("CaseNotFound", CaseNotFound), ("CardinalityViolation", CardinalityViolation),
   ("DataException", DataException), ("ArraySubscriptError", ArraySubscriptError),
   ("ArrayElementError", ArrayElementError),
   ("CharacterNotInRepertoire", CharacterNotInRepertoire),
   ("DatetimeFieldOverflow", DatetimeFieldOverflow),
   ("DatetimeValueOutOfRange", DatetimeValueOutOfRange), ("DivisionByZero", DivisionByZero),
   ("ErrorInAssignment", ErrorInAssignment),
   ("EscapeCharacterConflict", EscapeCharacterConflict),
   ("IndicatorOverflow", IndicatorOverflow), ("IntervalFieldOverflow", IntervalFieldOverflow),
   ("InvalidArgumentForLogarithm", InvalidArgumentForLogarithm),
   ("InvalidArgumentForNtileFunction", InvalidArgumentForNtileFunction),
   ("InvalidArgumentForNthValueFunction", InvalidArgumentForNthValueFunction),
   ("InvalidArgumentForPowerFunction", InvalidArgumentForPowerFunction),
   ("InvalidArgumentForWidthBucketFunction", InvalidArgumentForWidthBucketFunction),
   ("InvalidCharacterValueForCast", InvalidCharacterValueForCast),
   ("InvalidDatetimeFormat", InvalidDatetimeFormat),
   ("InvalidEscapeCharacter", InvalidEscapeCharacter),
   ("InvalidEscapeOctet", InvalidEscapeOctet), ("InvalidEscapeSequence", InvalidEscapeSequence),
   ("NonstandardUseOfEscapeCharacter", NonstandardUseOfEscapeCharacter),
   ("InvalidIndicatorParameterValue", InvalidIndicatorParameterValue),
   ("InvalidParameterValue", InvalidParameterValue),
   ("InvalidRegularExpression", InvalidRegularExpression),
   ("InvalidRowCountInLimitClause", InvalidRowCountInLimitClause),
   ("InvalidRowCountInResultOffsetClause", InvalidRowCountInResultOffsetClause),
   ("InvalidTablesampleArgument", InvalidTablesampleArgument),
   ("InvalidTablesampleRepeat", InvalidTablesampleRepeat),
   ("InvalidTimeZoneDisplacementValue", InvalidTimeZoneDisplacementValue),
   ("InvalidUseOfEscapeCharacter", InvalidUseOfEscapeCharacter),
   ("MostSpecificTypeMismatch", MostSpecificTypeMismatch),
   ("NullValueNotAllowed", NullValueNotAllowed),
   ("NullValueNoIndicatorParameter", NullValueNoIndicatorParameter),
   ("NumericValueOutOfRange", NumericValueOutOfRange),
   ("StringDataLengthMismatch", StringDataLengthMismatch),
   ("StringDataRightTruncation", StringDataRightTruncation), ("SubstringError", SubstringError),
   ("TrimError", TrimError), ("UnterminatedCString", UnterminatedCString),
   ("ZeroLengthCharacterString", ZeroLengthCharacterString),
   ("FloatingPointException", FloatingPointException),
   ("InvalidTextRepresentation", InvalidTextRepresentation),
   ("InvalidBinaryRepresentation", InvalidBinaryRepresentation),
   ("BadCopyFileFormat", BadCopyFileFormat),
   ("UntranslatableCharacter", UntranslatableCharacter), ("NotAnXmlDocument", NotAnXmlDocument),
   ("InvalidXmlDocument", InvalidXmlDocument), ("InvalidXmlContent", InvalidXmlContent),
   ("InvalidXmlComment", InvalidXmlComment),
   ("InvalidXmlProcessingInstruction", InvalidXmlProcessingInstruction),
   ("DuplicateJsonObjectKeyValue", DuplicateJsonObjectKeyValue),
   ("InvalidJsonText", InvalidJsonText), ("InvalidJsonSubscript", InvalidJsonSubscript),
   ("MoreThanOneJsonItem", MoreThanOneJsonItem), ("NoJsonItem", NoJsonItem),
   ("NonNumericJsonItem", NonNumericJsonItem),
   ("NonUniqueKeysInJsonObject", NonUniqueKeysInJsonObject),
   ("SingletonJsonItemRequired", SingletonJsonItemRequired),
   ("JsonArrayNotFound", JsonArrayNotFound), ("JsonMemberNotFound", JsonMemberNotFound),
   ("JsonNumberNotFound", JsonNumberNotFound), ("JsonObjectNotFound", JsonObjectNotFound),
   ("JsonScalarRequired", JsonScalarRequired),
   ("TooManyJsonArrayElements", TooManyJsonArrayElements),
   ("TooManyJsonObjectMembers", TooManyJsonObjectMembers),
   ("IntegrityConstraintViolation", IntegrityConstraintViolation),
   ("RestrictViolation", RestrictViolation), ("NotNullViolation", NotNullViolation),
   ("ForeignKeyViolation", ForeignKeyViolation), ("UniqueViolation", UniqueViolation),
   ("CheckViolation", CheckViolation), ("ExclusionViolation", ExclusionViolation),
   ("InvalidCursorState", InvalidCursorState),
   ("InvalidTransactionState", InvalidTransactionState),
   ("ActiveSQLTransaction", ActiveSQLTransaction),
   ("BranchTransactionAlreadyActive", BranchTransactionAlreadyActive),
   ("HeldCursorRequiresSameIsolationLevel", HeldCursorRequiresSameIsolationLevel),
   ("InappropriateAccessModeForBranchTransaction", InappropriateAccessModeForBranchTransaction),
   ("InappropriateIsolationLevelForBranchTransaction", InappropriateIsolationLevelForBranchTransaction),
   ("NoActiveSQLTransactionForBranchTransaction", NoActiveSQLTransactionForBranchTransaction),
   ("ReadOnlySQLTransaction", ReadOnlySQLTransaction),
   ("SchemaAndDataStatementMixingNotSupported", SchemaAndDataStatementMixingNotSupported),
   ("NoActiveSQLTransaction", NoActiveSQLTransaction),
   ("InFailedSQLTransaction", InFailedSQLTransaction),
   ("IdleInTransactionSessionTimeout", IdleInTransactionSessionTimeout),
   ("InvalidSQLStatementName", InvalidSQLStatementName),
   ("TriggeredDataChangeViolation", TriggeredDataChangeViolation),
   ("InvalidAuthorizationSpecification", InvalidAuthorizationSpecification),
   ("InvalidPassword", InvalidPassword),
   ("DependentPrivilegeDescriptorsStillExist", DependentPrivilegeDescriptorsStillExist),
   ("DependentObjectsStillExist", DependentObjectsStillExist),
   ("InvalidTransactionTermination", InvalidTransactionTermination),
   ("SQLRoutineException", SQLRoutineException),
   ("FunctionExecutedNoReturnStatement", FunctionExecutedNoReturnStatement),
   ("ModifyingSQLDataNotPermitted", ModifyingSQLDataNotPermitted),
   ("ProhibitedSQLStatementAttempted", ProhibitedSQLStatementAttempted),
   ("ReadingSQLDataNotPermitted", ReadingSQLDataNotPermitted),
   ("InvalidCursorName", InvalidCursorName),
   ("ExternalRoutineException", ExternalRoutineException),
   ("ExternalRoutineException_ContainingSQLNotPermitted", ExternalRoutineException_ContainingSQLNotPermitted),
   ("ExternalRoutineException_ModifyingSQLDataNotPermitted", ExternalRoutineException_ModifyingSQLDataNotPermitted),
   ("ExternalRoutineException_ProhibitedSQLStatementAttempted", ExternalRoutineException_ProhibitedSQLStatementAttempted),
   ("ExternalRoutineException_ReadingSQLDataNotPermitted", ExternalRoutineException_ReadingSQLDataNotPermitted),
   ("ExternalRoutineInvocationException", ExternalRoutineInvocationException),
   ("ExternalRoutineInvocationException_InvalidSQLstateReturned", ExternalRoutineInvocationException_InvalidSQLstateReturned),
   ("ExternalRoutineInvocationException_NullValueNotAllowed", ExternalRoutineInvocationException_NullValueNotAllowed),
   ("ExternalRoutineInvocationException_TriggerProtocolViolated", ExternalRoutineInvocationException_TriggerProtocolViolated),
   ("ExternalRoutineInvocationException_SrfProtocolViolated", ExternalRoutineInvocationException_SrfProtocolViolated),
   ("ExternalRoutineInvocationException_EventTriggerProtocolViolated", ExternalRoutineInvocationException_EventTriggerProtocolViolated),
   ("SavepointException", SavepointException),
   ("InvalidSavepointSpecification", InvalidSavepointSpecification),
   ("InvalidCatalogName", InvalidCatalogName), ("InvalidSchemaName", InvalidSchemaName),
   ("TransactionRollback", TransactionRollback),
   ("TransactionIntegrityConstraintViolation", TransactionIntegrityConstraintViolation),
   ("SerializationFailure", SerializationFailure),
   ("StatementCompletionUnknown", StatementCompletionUnknown),
   ("DeadlockDetected", DeadlockDetected),
   ("SyntaxErrorOrAccessRuleViolation", SyntaxErrorOrAccessRuleViolation),
   ("SyntaxError", SyntaxError), ("InsufficientPrivilege", InsufficientPrivilege),
   ("CannotCoerce", CannotCoerce), ("GroupingError", GroupingError),
   ("WindowingError", WindowingError), ("InvalidRecursion", InvalidRecursion),
   ("InvalidForeignKey", InvalidForeignKey), ("InvalidName", InvalidName),
   ("NameTooLong", NameTooLong), ("ReservedName", ReservedName),
   ("DatatypeMismatch", DatatypeMismatch), ("IndeterminateDatatype", IndeterminateDatatype),
   ("CollationMismatch", CollationMismatch), ("IndeterminateCollation", IndeterminateCollation),
   ("WrongObjectType", WrongObjectType), ("UndefinedColumn", UndefinedColumn),
   ("UndefinedFunction", UndefinedFunction), ("UndefinedTable", UndefinedTable),
   ("UndefinedParameter", UndefinedParameter), ("UndefinedObject", UndefinedObject),
   ("DuplicateColumn", DuplicateColumn), ("DuplicateCursor", DuplicateCursor),
   ("DuplicateDatabase", DuplicateDatabase), ("DuplicateFunction", DuplicateFunction),
   ("DuplicatePreparedStatement", DuplicatePreparedStatement),
   ("DuplicateSchema", DuplicateSchema), ("DuplicateTable", DuplicateTable),
   ("DuplicateAlias", DuplicateAlias), ("DuplicateObject", DuplicateObject),
   ("AmbiguousColumn", AmbiguousColumn), ("AmbiguousFunction", AmbiguousFunction),
   ("AmbiguousParameter", AmbiguousParameter), ("AmbiguousAlias", AmbiguousAlias),
   ("InvalidColumnReference", InvalidColumnReference),
   ("InvalidColumnDefinition", InvalidColumnDefinition),
   ("InvalidCursorDefinition", InvalidCursorDefinition),
   ("InvalidDatabaseDefinition", InvalidDatabaseDefinition),
   ("InvalidFunctionDefinition", InvalidFunctionDefinition),
   ("InvalidPreparedStatementDefinition", InvalidPreparedStatementDefinition),
   ("InvalidSchemaDefinition", InvalidSchemaDefinition),
   ("InvalidTableDefinition", InvalidTableDefinition),
   ("InvalidObjectDefinition", InvalidObjectDefinition),
   ("WithCheckOptionViolation", WithCheckOptionViolation),
   ("InsufficientResources", InsufficientResources), ("DiskFull", DiskFull),
   ("OutOfMemory", OutOfMemory), ("TooManyConnections", TooManyConnections),
   ("ConfigurationLimitExceeded", ConfigurationLimitExceeded),
   ("ProgramLimitExceeded", ProgramLimitExceeded), ("StatementTooComplex", StatementTooComplex),
   ("TooManyColumns", TooManyColumns), ("TooManyArguments", TooManyArguments),
   ("ObjectNotInPrerequisiteState", ObjectNotInPrerequisiteState), ("ObjectInUse", ObjectInUse),
   ("CantChangeRuntimeParam", CantChangeRuntimeParam), ("LockNotAvailable", LockNotAvailable),
   ("UnsafeNewEnumValueUsage", UnsafeNewEnumValueUsage),
   ("OperatorIntervention", OperatorIntervention), ("QueryCanceled", QueryCanceled),
   ("AdminShutdown", AdminShutdown), ("CrashShutdown", CrashShutdown),
   ("CannotConnectNow", CannotConnectNow), ("DatabaseDropped", DatabaseDropped),
   ("SystemError", SystemError), ("IoError", IoError), ("UndefinedFile", UndefinedFile),
   ("DuplicateFile", DuplicateFile), ("SnapshotTooOld", SnapshotTooOld),
   ("ConfigFileError", ConfigFileError), ("LockFileExists", LockFileExists),
   ("FdwError", FdwError), ("FdwColumnNameNotFound", FdwColumnNameNotFound),
   ("FdwDynamicParameterValueNeeded", FdwDynamicParameterValueNeeded),
   ("FdwFunctionSequenceError", FdwFunctionSequenceError),
   ("FdwInconsistentDescriptorInformation", FdwInconsistentDescriptorInformation),
   ("FdwInvalidAttributeValue", FdwInvalidAttributeValue),
   ("FdwInvalidColumnName", FdwInvalidColumnName),
   ("FdwInvalidColumnNumber", FdwInvalidColumnNumber),
   ("FdwInvalidDataType", FdwInvalidDataType),
   ("FdwInvalidDataTypeDescriptors", FdwInvalidDataTypeDescriptors),
   ("FdwInvalidDescriptorFieldIdentifier", FdwInvalidDescriptorFieldIdentifier),
   ("FdwInvalidHandle", FdwInvalidHandle), ("FdwInvalidOptionIndex", FdwInvalidOptionIndex),
   ("FdwInvalidOptionName", FdwInvalidOptionName),
   ("FdwInvalidStringLengthOrBufferLength", FdwInvalidStringLengthOrBufferLength),
   ("FdwInvalidStringFormat", FdwInvalidStringFormat),
   ("FdwInvalidUseOfNullPointer", FdwInvalidUseOfNullPointer),
   ("FdwTooManyHandles", FdwTooManyHandles), ("FdwOutOfMemory", FdwOutOfMemory),
   ("FdwNoSchemas", FdwNoSchemas), ("FdwOptionNameNotFound", FdwOptionNameNotFound),
   ("FdwReplyHandle", FdwReplyHandle), ("FdwSchemaNotFound", FdwSchemaNotFound),
   ("FdwTableNotFound", FdwTableNotFound),
   ("FdwUnableToCreateExecution", FdwUnableToCreateExecution),
   ("FdwUnableToCreateReply", FdwUnableToCreateReply),
   ("FdwUnableToEstablishConnection", FdwUnableToEstablishConnection),
   ("PLpgSQLError", PLpgSQLError), ("RaiseException", RaiseException),
   ("NoDataFound", NoDataFound), ("TooManyRows", TooManyRows), ("AssertFailure", AssertFailure),
   ("InternalError", InternalError), ("DataCorrupted", DataCorrupted),
   ("IndexCorrupted", IndexCorrupted)]

/-! ## Checkers used by the catalog proofs

The catalog facts over pairs of constants are decided by evaluation. These two
functions keep that evaluation cheap: byte strings are compared through a number,
and a relation is checked over the pairs of a list by a boolean function. -/

/-- The number a byte string spells in base 256. Equal byte strings have equal
numbers. -/
def keyNat (bs : GoString) : Nat := bs.foldl (fun n b => n * 256 + b.toNat) 0

/-- Whether the boolean relation `r` holds from every element of a list to every
later element. -/
def pairwiseB {α : Type} (r : α → α → Bool) : List α → Bool
  | [] => true
  | x :: xs => xs.all (r x) && pairwiseB r xs


/-! ## Evaluation lemmas for the predicates -/

theorem IsClass_pqError_some (e : pq.Error) (c : pq.ErrorClass)
    (h : 2 ≤ e.Code.bytes.length) :
    IsClass (.pqError (some e)) c
      = .ok (decide (pq.ErrorClass.mk (e.Code.bytes.take 2) = c)) := by
  simp [IsClass, assertPqError, derefCode, pq.ErrorCode.Class, h, bind, Except.bind, pure,
    Except.pure]

theorem IsClass_pqError_short (e : pq.Error) (c : pq.ErrorClass)
    (h : e.Code.bytes.length < 2) :
    IsClass (.pqError (some e)) c = .error Panic.sliceBoundsOutOfRange := by
  have h2 : ¬ 2 ≤ e.Code.bytes.length := by omega
  simp [IsClass, assertPqError, derefCode, pq.ErrorCode.Class, h2, bind, Except.bind]

theorem IsClass_pqError_none (c : pq.ErrorClass) :
    IsClass (.pqError none) c = .error Panic.nilPointerDereference := rfl

theorem IsCode_pqError_some (e : pq.Error) (k : pq.ErrorCode) :
    IsCode (.pqError (some e)) k = .ok (decide (e.Code = k)) := rfl

theorem IsCode_pqError_none (k : pq.ErrorCode) :
    IsCode (.pqError none) k = .error Panic.nilPointerDereference := rfl

theorem ErrorClass_mk_eq_iff (bs : GoString) (c : pq.ErrorClass) :
    pq.ErrorClass.mk bs = c ↔ bs = c.bytes := by
  cases c; simp

/-! ## Catalog lemmas -/

/-- Every code constant has at least two bytes, and its first two bytes are the
value of a class constant. -/
theorem codeConstants_class_mem :
    ∀ k ∈ codeConstants, 2 ≤ k.2.bytes.length ∧
      pq.ErrorClass.mk (k.2.bytes.take 2) ∈ classConstants.map Prod.snd := by
  decide!

theorem pairwiseB_sound {α : Type} (r : α → α → Bool) (l : List α)
    (h : pairwiseB r l = true) : l.Pairwise (fun a b => r a b = true) := by
  induction l with
  | nil => exact List.Pairwise.nil
  | cons x xs ih =>
    simp only [pairwiseB, Bool.and_eq_true, List.all_eq_true] at h
    exact List.Pairwise.cons h.1 (ih h.2)

/-- Two code constants of equal value are, in either order, one of the two
synonym pairs of the catalog. -/
theorem codeConstants_pairwise_synonyms :
    codeConstants.Pairwise (fun a b => a.2 = b.2 →
      ((a.1, b.1) ∈ [("ArraySubscriptError", "ArrayElementError"),
          ("DatetimeFieldOverflow", "DatetimeValueOutOfRange")] ∨
       (b.1, a.1) ∈ [("ArraySubscriptError", "ArrayElementError"),
          ("DatetimeFieldOverflow", "DatetimeValueOutOfRange")])) := by
  have h : pairwiseB (fun a b : String × pq.ErrorCode =>
      !(Nat.beq (keyNat a.2.bytes) (keyNat b.2.bytes)) ||
        decide ((a.1, b.1) ∈ [("ArraySubscriptError", "ArrayElementError"),
            ("DatetimeFieldOverflow", "DatetimeValueOutOfRange")] ∨
          (b.1, a.1) ∈ [("ArraySubscriptError", "ArrayElementError"),
            ("DatetimeFieldOverflow", "DatetimeValueOutOfRange")]))
      codeConstants = true := by
    decide!
  refine (pairwiseB_sound _ _ h).imp ?_
  intro a b hr hval
  rw [hval] at hr
  simpa using hr

/-- No two entries of the list of class constants have the same value. -/
theorem classConstants_pairwise_ne :
    classConstants.Pairwise (fun a b => a.2 ≠ b.2) := by
  have h : pairwiseB (fun a b : String × pq.ErrorClass =>
      !(Nat.beq (keyNat a.2.bytes) (keyNat b.2.bytes))) classConstants = true := by
    decide!
  refine (pairwiseB_sound _ _ h).imp ?_
  intro a b hr hval
  rw [hval] at hr
  simp at hr


/-! ## The classifier -/

/-- C1: for a non-nil `*pq.Error` whose Code has at least two bytes and for every
class string `c`, catalog constant or not, `IsClass` returns a boolean, and that
boolean is true exactly when the first two bytes of the Code are `c`. -/
theorem IsClass_eq_first_two (e : pq.Error) (c : pq.ErrorClass)
    (h : 2 ≤ e.Code.bytes.length) :
    IsClass (.pqError (some e)) c = .ok (decide (e.Code.bytes.take 2 = c.bytes)) := by
  rw [IsClass_pqError_some e c h]
  simp only [ErrorClass_mk_eq_iff]

theorem IsClass_eq_first_two_witness :
    2 ≤ UniqueViolation.bytes.length ∧
    IsClass (.pqError (some ⟨UniqueViolation, str "duplicate key"⟩))
        (pq.ErrorClass.mk (str "23"))
      = .ok (decide (UniqueViolation.bytes.take 2 = (pq.ErrorClass.mk (str "23")).bytes)) :=
  ⟨by decide,
    IsClass_eq_first_two ⟨UniqueViolation, str "duplicate key"⟩ (pq.ErrorClass.mk (str "23"))
      (by decide)⟩

/-- C2: `IsCode` is an exact match. It returns true exactly when the error is a
(non-nil) `*pq.Error` whose Code equals `k` as a whole string; on every non-nil
`*pq.Error` it returns the result of comparing the whole Code with `k`, so a Code
that merely shares a prefix with `k` gives false. -/
theorem IsCode_exact (err : GoError) (k : pq.ErrorCode) :
    (IsCode err k = .ok true ↔ ∃ e : pq.Error, err = .pqError (some e) ∧ e.Code = k) ∧
    (∀ e : pq.Error, IsCode (.pqError (some e)) k = .ok (decide (e.Code = k))) := by
  refine ⟨?_, fun e => IsCode_pqError_some e k⟩
  constructor
  · intro h
    match err, h with
    | .pqError (some e), h =>
      rw [IsCode_pqError_some] at h
      exact ⟨e, rfl, by simpa using h⟩
    | .pqError none, h => exact absurd h (by rw [IsCode_pqError_none]; simp)
    | .nil, h => exact absurd h (by simp [IsCode, assertPqError, pure, Except.pure])
    | .other t w, h => exact absurd h (by simp [IsCode, assertPqError, pure, Except.pure])
  · rintro ⟨e, rfl, rfl⟩
    rw [IsCode_pqError_some]
    simp

/-- C3: on the nil error both predicates return false, for every class and code. -/
theorem nil_never_matches (c : pq.ErrorClass) (k : pq.ErrorCode) :
    IsClass .nil c = .ok false ∧ IsCode .nil k = .ok false :=
  ⟨rfl, rfl⟩

/-- C4: on a non-nil error whose dynamic type is not `*pq.Error` both predicates
return false, for every class and code. -/
theorem other_never_matches (text : GoString) (unwrap : GoError)
    (c : pq.ErrorClass) (k : pq.ErrorCode) :
    IsClass (.other text unwrap) c = .ok false ∧ IsCode (.other text unwrap) k = .ok false :=
  ⟨rfl, rfl⟩

/-- C5, as stated, fails: `IsClass` panics on a nil `*pq.Error` pointer stored in
the interface, on a `*pq.Error` with the empty Code and on one with a one-byte
Code. -/
theorem IsClass_panics :
    IsClass (.pqError none) ClassDataException = .error Panic.nilPointerDereference ∧
    IsClass (.pqError (some ⟨pq.ErrorCode.mk (str ""), str "m"⟩)) ClassDataException
      = .error Panic.sliceBoundsOutOfRange ∧
    IsClass (.pqError (some ⟨pq.ErrorCode.mk (str "2"), str "m"⟩)) ClassDataException
      = .error Panic.sliceBoundsOutOfRange := by
  decide

/-- C5, amended: `IsClass` returns a boolean exactly on the nil interface, on an
error of another dynamic type, and on a non-nil `*pq.Error` whose Code has at
least two bytes; that is, on every error except a nil `*pq.Error` pointer and a
`*pq.Error` whose Code is shorter than two bytes. -/
theorem IsClass_returns_iff (err : GoError) (c : pq.ErrorClass) :
    (∃ b : Bool, IsClass err c = .ok b) ↔
      (err ≠ .pqError none ∧
        ∀ e : pq.Error, err = .pqError (some e) → 2 ≤ e.Code.bytes.length) := by
  match err with
  | .nil => exact ⟨fun _ => ⟨by simp, by simp⟩, fun _ => ⟨false, rfl⟩⟩
  | .other t w => exact ⟨fun _ => ⟨by simp, by simp⟩, fun _ => ⟨false, rfl⟩⟩
  | .pqError none =>
    rw [IsClass_pqError_none]
    simp
  | .pqError (some e) =>
    by_cases h : 2 ≤ e.Code.bytes.length
    · rw [IsClass_pqError_some e c h]
      simp [h]
    · rw [IsClass_pqError_short e c (by omega)]
      simp [h]

/-- C6, as stated, fails: `IsCode` panics on a nil `*pq.Error` pointer stored in
the interface. -/
theorem IsCode_panics :
    IsCode (.pqError none) UniqueViolation = .error Panic.nilPointerDereference := by
  decide

/-- C6, amended: `IsCode` returns a boolean on every error except a nil
`*pq.Error` pointer stored in the interface (the nil interface, an error of
another dynamic type, a non-nil `*pq.Error` with any Code), and on that one it
does not. -/
theorem IsCode_returns_iff (err : GoError) (k : pq.ErrorCode) :
    (∃ b : Bool, IsCode err k = .ok b) ↔ err ≠ .pqError none := by
  match err with
  | .nil => exact ⟨fun _ => by simp, fun _ => ⟨false, rfl⟩⟩
  | .other t w => exact ⟨fun _ => by simp, fun _ => ⟨false, rfl⟩⟩
  | .pqError none =>
    rw [IsCode_pqError_none]
    simp
  | .pqError (some e) =>
    rw [IsCode_pqError_some]
    simp

/-! ## The catalog -/

/-- C7: referential integrity of the catalog. The first two bytes of every named
code constant are the value of some named class constant. -/
theorem code_class_in_catalog :
    ∀ k ∈ codeConstants, ∃ c ∈ classConstants, k.2.bytes.take 2 = c.2.bytes := by
  intro k hk
  obtain ⟨c, hc, hcv⟩ := List.mem_map.mp (codeConstants_class_mem k hk).2
  exact ⟨c, hc, by rw [hcv]⟩

theorem code_class_in_catalog_witness :
    ("UniqueViolation", UniqueViolation) ∈ codeConstants ∧
    ∃ c ∈ classConstants, UniqueViolation.bytes.take 2 = c.2.bytes :=
  ⟨by decide, code_class_in_catalog ("UniqueViolation", UniqueViolation) (by decide)⟩

/-- C8: for every named code constant `k` and every `*pq.Error` whose Code is `k`,
exactly one value among the values of the named class constants makes `IsClass`
return true. -/
theorem code_belongs_to_one_class :
    ∀ k ∈ codeConstants, ∀ e : pq.Error, e.Code = k.2 →
      ∃! C : pq.ErrorClass, C ∈ classConstants.map Prod.snd ∧
        IsClass (.pqError (some e)) C = .ok true := by
  intro k hk e he
  obtain ⟨hlen, hmem⟩ := codeConstants_class_mem k hk
  rw [← he] at hlen hmem
  refine ⟨pq.ErrorClass.mk (e.Code.bytes.take 2), ⟨hmem, ?_⟩, ?_⟩
  · rw [IsClass_pqError_some e _ hlen]
    simp
  · rintro C ⟨_, hC⟩
    rw [IsClass_pqError_some e _ hlen] at hC
    have : pq.ErrorClass.mk (e.Code.bytes.take 2) = C := by simpa using hC
    exact this.symm

theorem code_belongs_to_one_class_witness :
    ("QueryCanceled", QueryCanceled) ∈ codeConstants ∧
    (∃! C : pq.ErrorClass, C ∈ classConstants.map Prod.snd ∧
        IsClass (.pqError (some ⟨QueryCanceled, str "canceling statement"⟩)) C = .ok true) ∧
    IsClass (.pqError (some ⟨QueryCanceled, str "canceling statement"⟩))
        ClassOperatorIntervention = .ok true :=
  ⟨by decide,
    code_belongs_to_one_class ("QueryCanceled", QueryCanceled) (by decide)
      ⟨QueryCanceled, str "canceling statement"⟩ rfl,
    by decide⟩

/-- C9, as stated, fails: `DatetimeFieldOverflow` and `DatetimeValueOutOfRange` are
two differently named code constants of the catalog with the same value "22008",
and neither of them is `ArraySubscriptError` or `ArrayElementError`. -/
theorem second_synonym_pair :
    ("DatetimeFieldOverflow", DatetimeFieldOverflow) ∈ codeConstants ∧
    ("DatetimeValueOutOfRange", DatetimeValueOutOfRange) ∈ codeConstants ∧
    "DatetimeFieldOverflow" ≠ "DatetimeValueOutOfRange" ∧
    DatetimeFieldOverflow = DatetimeValueOutOfRange ∧
    DatetimeFieldOverflow = pq.ErrorCode.mk (str "22008") ∧
    "DatetimeFieldOverflow" ∉ ["ArraySubscriptError", "ArrayElementError"] ∧
    "DatetimeValueOutOfRange" ∉ ["ArraySubscriptError", "ArrayElementError"] := by
  decide

/-- C9, amended: two differently named code constants of equal value are one of
two synonym pairs, `ArraySubscriptError` and `ArrayElementError` ("2202E") or
`DatetimeFieldOverflow` and `DatetimeValueOutOfRange` ("22008"); every other pair
of differently named code constants has different values. -/
theorem code_values_distinct_up_to_synonyms :
    ∀ a ∈ codeConstants, ∀ b ∈ codeConstants, a.1 ≠ b.1 → a.2 = b.2 →
      (a.1, b.1) ∈ [("ArraySubscriptError", "ArrayElementError"),
        ("ArrayElementError", "ArraySubscriptError"),
        ("DatetimeFieldOverflow", "DatetimeValueOutOfRange"),
        ("DatetimeValueOutOfRange", "DatetimeFieldOverflow")] := by
  intro a ha b hb hname hval
  have hne : a ≠ b := fun h => hname (by rw [h])
  have hsymm : Symmetric (fun a b : String × pq.ErrorCode => a.2 = b.2 →
      ((a.1, b.1) ∈ [("ArraySubscriptError", "ArrayElementError"),
          ("DatetimeFieldOverflow", "DatetimeValueOutOfRange")] ∨
       (b.1, a.1) ∈ [("ArraySubscriptError", "ArrayElementError"),
          ("DatetimeFieldOverflow", "DatetimeValueOutOfRange")])) :=
    fun x y h hxy => (h hxy.symm).symm
  have h := codeConstants_pairwise_synonyms.forall hsymm ha hb hne hval
  simp only [List.mem_cons, Prod.mk.injEq, List.mem_singleton, List.not_mem_nil,
    or_false] at h ⊢
  rcases h with (⟨h1, h2⟩ | ⟨h1, h2⟩) | (⟨h1, h2⟩ | ⟨h1, h2⟩)
  · exact Or.inl ⟨h1, h2⟩
  · exact Or.inr (Or.inr (Or.inl ⟨h1, h2⟩))
  · exact Or.inr (Or.inl ⟨h2, h1⟩)
  · exact Or.inr (Or.inr (Or.inr ⟨h2, h1⟩))

theorem code_values_distinct_up_to_synonyms_witness :
    ("ArrayElementError", ArrayElementError) ∈ codeConstants ∧
    ("ArraySubscriptError", ArraySubscriptError) ∈ codeConstants ∧
    "ArrayElementError" ≠ "ArraySubscriptError" ∧
    ArrayElementError = ArraySubscriptError ∧
    ("ArrayElementError", "ArraySubscriptError") ∈
      [("ArraySubscriptError", "ArrayElementError"),
        ("ArrayElementError", "ArraySubscriptError"),
        ("DatetimeFieldOverflow", "DatetimeValueOutOfRange"),
        ("DatetimeValueOutOfRange", "DatetimeFieldOverflow")] :=
  ⟨by decide, by decide, by decide, by decide,
    code_values_distinct_up_to_synonyms
      ("ArrayElementError", ArrayElementError) (by decide)
      ("ArraySubscriptError", ArraySubscriptError) (by decide) (by decide) (by decide)⟩

/-- C10: the catalog names 43 class constants, and no two differently named class
constants have the same value. -/
theorem class_values_distinct :
    classConstants.length = 43 ∧
    ∀ a ∈ classConstants, ∀ b ∈ classConstants, a.1 ≠ b.1 → a.2 ≠ b.2 := by
  refine ⟨rfl, ?_⟩
  intro a ha b hb hname
  have hsymm : Symmetric (fun a b : String × pq.ErrorClass => a.2 ≠ b.2) :=
    fun _ _ h => h.symm
  exact classConstants_pairwise_ne.forall hsymm ha hb (fun h => hname (by rw [h]))

/-! ## Consequences for callers -/

theorem IsCode_true_elim (err : GoError) (k : pq.ErrorCode)
    (h : IsCode err k = .ok true) :
    ∃ e : pq.Error, err = .pqError (some e) ∧ e.Code = k := by
  match err, h with
  | .pqError (some e), h =>
    rw [IsCode_pqError_some] at h
    exact ⟨e, rfl, by simpa using h⟩
  | .pqError none, h => exact absurd h (by rw [IsCode_pqError_none]; simp)
  | .nil, h => exact absurd h (by simp [IsCode, assertPqError, pure, Except.pure])
  | .other t w, h => exact absurd h (by simp [IsCode, assertPqError, pure, Except.pure])

theorem IsClass_true_elim (err : GoError) (c : pq.ErrorClass)
    (h : IsClass err c = .ok true) :
    ∃ e : pq.Error, err = .pqError (some e) ∧ 2 ≤ e.Code.bytes.length ∧
      pq.ErrorClass.mk (e.Code.bytes.take 2) = c := by
  match err, h with
  | .pqError (some e), h =>
    by_cases hlen : 2 ≤ e.Code.bytes.length
    · rw [IsClass_pqError_some e c hlen] at h
      exact ⟨e, rfl, hlen, by simpa using h⟩
    · rw [IsClass_pqError_short e c (by omega)] at h
      exact absurd h (by simp)
  | .pqError none, h => exact absurd h (by rw [IsClass_pqError_none]; simp)
  | .nil, h => exact absurd h (by simp [IsClass, assertPqError, pure, Except.pure])
  | .other t w, h => exact absurd h (by simp [IsClass, assertPqError, pure, Except.pure])

/-- C11: `ArraySubscriptError` and `ArrayElementError` are two names for the one
value "2202E", so `IsCode` gives the same result for both on every error. -/
theorem array_synonyms_agree (err : GoError) :
    ArraySubscriptError = pq.ErrorCode.mk (str "2202E") ∧
    ArrayElementError = pq.ErrorCode.mk (str "2202E") ∧
    ("ArraySubscriptError", ArraySubscriptError) ∈ codeConstants ∧
    ("ArrayElementError", ArrayElementError) ∈ codeConstants ∧
    IsCode err ArraySubscriptError = IsCode err ArrayElementError :=
  ⟨rfl, rfl, by decide, by decide, rfl⟩

/-- C12: every named class constant has a value of exactly two bytes and every
named code constant has a value of exactly five bytes. -/
theorem catalog_values_well_formed :
    (∀ c ∈ classConstants, c.2.bytes.length = 2) ∧
    (∀ k ∈ codeConstants, k.2.bytes.length = 5) := by
  decide!

/-- C13: for a `*pq.Error` whose Code is `UniqueViolation`, `IsCode` is true for
`UniqueViolation` and false for `ForeignKeyViolation`, and `IsClass` is true for
`ClassIntegrityConstraintViolation` and false for `ClassConnectionException`. -/
theorem unique_violation_scenario (e : pq.Error) (h : e.Code = UniqueViolation) :
    IsCode (.pqError (some e)) UniqueViolation = .ok true ∧
    IsCode (.pqError (some e)) ForeignKeyViolation = .ok false ∧
    IsClass (.pqError (some e)) ClassIntegrityConstraintViolation = .ok true ∧
    IsClass (.pqError (some e)) ClassConnectionException = .ok false := by
  have hlen : 2 ≤ e.Code.bytes.length := by rw [h]; decide
  refine ⟨?_, ?_, ?_, ?_⟩
  · rw [IsCode_pqError_some, h]; decide
  · rw [IsCode_pqError_some, h]; decide
  · rw [IsClass_pqError_some e _ hlen, h]; decide
  · rw [IsClass_pqError_some e _ hlen, h]; decide

theorem unique_violation_scenario_witness :
    IsCode (.pqError (some ⟨UniqueViolation, str "duplicate key"⟩)) UniqueViolation
      = .ok true ∧
    IsCode (.pqError (some ⟨UniqueViolation, str "duplicate key"⟩)) ForeignKeyViolation
      = .ok false ∧
    IsClass (.pqError (some ⟨UniqueViolation, str "duplicate key"⟩))
      ClassIntegrityConstraintViolation = .ok true ∧
    IsClass (.pqError (some ⟨UniqueViolation, str "duplicate key"⟩))
      ClassConnectionException = .ok false :=
  unique_violation_scenario ⟨UniqueViolation, str "duplicate key"⟩ rfl

/-- C14: `SerializationFailure` is "40001", `ClassTransactionRollback` is "40" and
`DeadlockDetected` is "40P01"; for a `*pq.Error` whose Code is "40001", `IsClass`
is true for `ClassTransactionRollback` and `IsCode` is false for
`DeadlockDetected`. -/
theorem serialization_failure_scenario (e : pq.Error)
    (h : e.Code = pq.ErrorCode.mk (str "40001")) :
    SerializationFailure = pq.ErrorCode.mk (str "40001") ∧
    ClassTransactionRollback = pq.ErrorClass.mk (str "40") ∧
    DeadlockDetected = pq.ErrorCode.mk (str "40P01") ∧
    IsClass (.pqError (some e)) ClassTransactionRollback = .ok true ∧
    IsCode (.pqError (some e)) DeadlockDetected = .ok false := by
  have hlen : 2 ≤ e.Code.bytes.length := by rw [h]; decide
  refine ⟨rfl, rfl, rfl, ?_, ?_⟩
  · rw [IsClass_pqError_some e _ hlen, h]; decide
  · rw [IsCode_pqError_some, h]; decide

theorem serialization_failure_scenario_witness :
    SerializationFailure = pq.ErrorCode.mk (str "40001") ∧
    ClassTransactionRollback = pq.ErrorClass.mk (str "40") ∧
    DeadlockDetected = pq.ErrorCode.mk (str "40P01") ∧
    IsClass (.pqError (some ⟨SerializationFailure, str "could not serialize"⟩))
      ClassTransactionRollback = .ok true ∧
    IsCode (.pqError (some ⟨SerializationFailure, str "could not serialize"⟩))
      DeadlockDetected = .ok false :=
  serialization_failure_scenario ⟨SerializationFailure, str "could not serialize"⟩ rfl

/-- C15: `IsClass` validates nothing about the class it is given. On a non-nil
`*pq.Error` whose Code has at least two bytes it returns false for every class
whose length is not two, and for every class of length two, in the catalog or
not, it returns whether the Code begins with that class. -/
theorem IsClass_tests_literal_value (e : pq.Error) (c : pq.ErrorClass)
    (h : 2 ≤ e.Code.bytes.length) :
    (c.bytes.length ≠ 2 → IsClass (.pqError (some e)) c = .ok false) ∧
    (c.bytes.length = 2 →
      IsClass (.pqError (some e)) c = .ok (decide (c.bytes <+: e.Code.bytes))) := by
  rw [IsClass_pqError_some e c h]
  constructor
  · intro hc
    have hne : pq.ErrorClass.mk (e.Code.bytes.take 2) ≠ c := by
      intro heq
      apply hc
      rw [← heq]
      simp only [List.length_take]
      omega
    simp [hne]
  · intro hc
    congr 1
    rw [decide_eq_decide, ErrorClass_mk_eq_iff, List.prefix_iff_eq_take, hc]
    exact eq_comm

theorem IsClass_tests_literal_value_witness :
    2 ≤ (str "ZZ123").length ∧
    pq.ErrorClass.mk (str "ZZ") ∉ classConstants.map Prod.snd ∧
    IsClass (.pqError (some ⟨pq.ErrorCode.mk (str "ZZ123"), str "m"⟩))
      (pq.ErrorClass.mk (str "ZZ")) = .ok true ∧
    IsClass (.pqError (some ⟨pq.ErrorCode.mk (str "ZZ123"), str "m"⟩))
      (pq.ErrorClass.mk (str "ZZ123")) = .ok false := by
  have h := IsClass_tests_literal_value ⟨pq.ErrorCode.mk (str "ZZ123"), str "m"⟩
    (pq.ErrorClass.mk (str "ZZ")) (by decide)
  have h2 := IsClass_tests_literal_value ⟨pq.ErrorCode.mk (str "ZZ123"), str "m"⟩
    (pq.ErrorClass.mk (str "ZZ123")) (by decide)
  refine ⟨by decide, by decide!, ?_, h2.1 (by decide)⟩
  rw [h.2 (by decide)]
  decide

/-- The catalog has no code constant of value "22013", "2200H" or "428C9". -/
theorem codeConstants_absent_values :
    pq.ErrorCode.mk (str "22013") ∉ codeConstants.map Prod.snd ∧
    pq.ErrorCode.mk (str "2200H") ∉ codeConstants.map Prod.snd ∧
    pq.ErrorCode.mk (str "428C9") ∉ codeConstants.map Prod.snd := by
  decide!

/-- C17: a code match implies the matching class. If `IsCode` is true for a code
`k` of at least two bytes then `IsClass` is true for the class made of the first
two bytes of `k`; and if `IsCode` is true for a catalog code then `IsClass` is true
for the catalog class whose value is the first two bytes of that code. -/
theorem code_match_implies_class_match :
    (∀ (err : GoError) (k : pq.ErrorCode), 2 ≤ k.bytes.length →
      IsCode err k = .ok true →
      IsClass err (pq.ErrorClass.mk (k.bytes.take 2)) = .ok true) ∧
    (∀ k ∈ codeConstants, ∀ err : GoError, IsCode err k.2 = .ok true →
      ∃ C ∈ classConstants, C.2.bytes = k.2.bytes.take 2 ∧
        IsClass err C.2 = .ok true) := by
  have key : ∀ (err : GoError) (k : pq.ErrorCode), 2 ≤ k.bytes.length →
      IsCode err k = .ok true →
      IsClass err (pq.ErrorClass.mk (k.bytes.take 2)) = .ok true := by
    intro err k hlen h
    obtain ⟨e, rfl, rfl⟩ := IsCode_true_elim err k h
    rw [IsClass_pqError_some e _ hlen]
    simp
  refine ⟨key, ?_⟩
  intro k hk err h
  obtain ⟨hlen, hmem⟩ := codeConstants_class_mem k hk
  obtain ⟨C, hC, hCv⟩ := List.mem_map.mp hmem
  refine ⟨C, hC, by rw [hCv], ?_⟩
  rw [hCv]
  exact key err k.2 hlen h

theorem code_match_implies_class_match_witness :
    IsCode (.pqError (some ⟨QueryCanceled, str "canceling statement"⟩)) QueryCanceled
      = .ok true ∧
    IsClass (.pqError (some ⟨QueryCanceled, str "canceling statement"⟩))
      (pq.ErrorClass.mk (QueryCanceled.bytes.take 2)) = .ok true ∧
    ∃ C ∈ classConstants, C.2.bytes = QueryCanceled.bytes.take 2 ∧
      IsClass (.pqError (some ⟨QueryCanceled, str "canceling statement"⟩)) C.2 = .ok true :=
  ⟨by decide,
    code_match_implies_class_match.1 _ QueryCanceled (by decide) (by decide),
    code_match_implies_class_match.2 ("QueryCanceled", QueryCanceled) (by decide) _
      (by decide)⟩

/-- C18: a matched error determines the matched value. An error for which
`IsClass` is true with two classes has them equal, and an error for which `IsCode`
is true with two codes has them equal. -/
theorem matched_value_unique (err : GoError) :
    (∀ c1 c2 : pq.ErrorClass, IsClass err c1 = .ok true → IsClass err c2 = .ok true →
      c1 = c2) ∧
    (∀ k1 k2 : pq.ErrorCode, IsCode err k1 = .ok true → IsCode err k2 = .ok true →
      k1 = k2) := by
  constructor
  · intro c1 c2 h1 h2
    obtain ⟨e1, he1, _, hc1⟩ := IsClass_true_elim err c1 h1
    obtain ⟨e2, he2, _, hc2⟩ := IsClass_true_elim err c2 h2
    rw [he1] at he2
    cases he2
    rw [← hc1, ← hc2]
  · intro k1 k2 h1 h2
    obtain ⟨e1, he1, hk1⟩ := IsCode_true_elim err k1 h1
    obtain ⟨e2, he2, hk2⟩ := IsCode_true_elim err k2 h2
    rw [he1] at he2
    cases he2
    rw [← hk1, ← hk2]

theorem matched_value_unique_witness :
    IsClass (.pqError (some ⟨DeadlockDetected, str "deadlock detected"⟩))
      ClassTransactionRollback = .ok true ∧
    IsCode (.pqError (some ⟨DeadlockDetected, str "deadlock detected"⟩))
      DeadlockDetected = .ok true ∧
    ClassTransactionRollback = pq.ErrorClass.mk (str "40") ∧
    DeadlockDetected = pq.ErrorCode.mk (str "40P01") :=
  ⟨by decide, by decide,
    (matched_value_unique (.pqError (some ⟨DeadlockDetected, str "deadlock detected"⟩))).1
      _ _ (by decide) (by decide),
    (matched_value_unique (.pqError (some ⟨DeadlockDetected, str "deadlock detected"⟩))).2
      _ _ (by decide) (by decide)⟩

/-- C19: no catalog class is empty. For every named class constant the catalog has
a named code constant whose value is the class value followed by "000", and the
class of that code is the class constant. -/
theorem class_has_generic_code :
    ∀ c ∈ classConstants, ∃ k ∈ codeConstants,
      k.2.bytes = c.2.bytes ++ str "000" ∧ k.2.Class = .ok c.2 := by
  decide!

theorem class_has_generic_code_witness :
    ("ClassOperatorIntervention", ClassOperatorIntervention) ∈ classConstants ∧
    ∃ k ∈ codeConstants, k.2.bytes = ClassOperatorIntervention.bytes ++ str "000" ∧
      k.2.Class = .ok ClassOperatorIntervention :=
  ⟨by decide,
    class_has_generic_code ("ClassOperatorIntervention", ClassOperatorIntervention)
      (by decide)⟩

/-- C20: the predicates do not unwrap. For an error whose own dynamic type is not
`*pq.Error` and which wraps, at any depth, a `*pq.Error` `e`, `IsCode` is false for
the code of `e` and `IsClass` is false for every class. -/
theorem predicates_do_not_unwrap (w : GoError) (e : pq.Error)
    (hty : ∀ p : Option pq.Error, w ≠ .pqError p) (hwrap : w.chainsTo e = true) :
    IsCode w e.Code = .ok false ∧ ∀ c : pq.ErrorClass, IsClass w c = .ok false := by
  match w, hty, hwrap with
  | .other text unwrap, _, _ => exact ⟨rfl, fun _ => rfl⟩
  | .pqError p, hty, _ => exact absurd rfl (hty p)
  | .nil, _, hwrap => exact absurd hwrap (by simp [GoError.chainsTo])

theorem predicates_do_not_unwrap_witness :
    (GoError.other (str "query failed")
        (.other (str "tx") (.pqError (some ⟨QueryCanceled, str "canceling"⟩)))).chainsTo
      ⟨QueryCanceled, str "canceling"⟩ = true ∧
    IsCode (.pqError (some ⟨QueryCanceled, str "canceling"⟩)) QueryCanceled = .ok true ∧
    IsCode (.other (str "query failed")
        (.other (str "tx") (.pqError (some ⟨QueryCanceled, str "canceling"⟩))))
      QueryCanceled = .ok false ∧
    ∀ c : pq.ErrorClass,
      IsClass (.other (str "query failed")
        (.other (str "tx") (.pqError (some ⟨QueryCanceled, str "canceling"⟩)))) c
        = .ok false :=
  ⟨by decide, by decide,
    (predicates_do_not_unwrap
      (.other (str "query failed")
        (.other (str "tx") (.pqError (some ⟨QueryCanceled, str "canceling"⟩))))
      ⟨QueryCanceled, str "canceling"⟩ (fun p h => by cases h) (by decide)).1,
    (predicates_do_not_unwrap
      (.other (str "query failed")
        (.other (str "tx") (.pqError (some ⟨QueryCanceled, str "canceling"⟩))))
      ⟨QueryCanceled, str "canceling"⟩ (fun p h => by cases h) (by decide)).2⟩


end pqerror
